import Mathlib

/-!
Shallow embedding of the DPNS contested-names screen of dash-evo-tool
(src/ui/dpns_contested_names_screen.rs) and of the SDK request settings
(src/sdk_wrapper.rs), together with proofs about its claimed properties.

Timestamps are modelled as integers counting seconds; fallible reads from
the app context or the local database are modelled as an explicit
Except-valued argument, so that "the underlying read failed" is the
Except.error case. Vectors become lists; the stable sort_by is modelled
with the stable insertion sort of Mathlib over the relation "comparator
does not return Greater", which agrees with any stable sort for the total
preorders used here.
-/

/-- SortColumn from dpns_contested_names_screen.rs. -/
inductive SortColumn
  | contestedName
  | lockedVotes
  | abstainVotes
  | endingTime
  | lastUpdated
deriving DecidableEq

/-- SortOrder from dpns_contested_names_screen.rs. -/
inductive SortOrder
  | ascending
  | descending
deriving DecidableEq

/-- MessageType from the ui module (Error, Info, Success severities). -/
inductive MessageType
  | error
  | info
  | success
deriving DecidableEq

/-- One contestant of a contested name (model/contested_name.rs, shape taken
from the field accesses in the screen code). -/
structure Contestant where
  id : Nat
  name : String
  votes : Nat
deriving DecidableEq

/-- A contested name record as used by the screen (normalized key plus
optional vote tallies and times, all absent until first fetch). -/
structure ContestedName where
  normalized_contested_name : String
  locked_votes : Option Nat
  abstain_votes : Option Nat
  end_time : Option Nat
  last_updated : Option Nat
  contestants : Option (List Contestant)
deriving DecidableEq

/-- A locally held identity (qualified_identity.rs); only its identity is
relevant to the embedded operations, which clone it opaquely. -/
structure QualifiedIdentity where
  id : Nat
deriving DecidableEq

/-- ResourceVoteChoice from dash_sdk as used by the screen. -/
inductive ResourceVoteChoice
  | towardsIdentity (id : Nat)
  | lock
  | abstain
deriving DecidableEq

/-- ContestedResourceTask from platform/contested_names (the two variants the
screen constructs or dispatches). -/
inductive ContestedResourceTask
  | voteOnDPNSName (contested_name : String) (vote_choice : ResourceVoteChoice)
      (voters : List QualifiedIdentity)
  | queryDPNSContestedResources
deriving DecidableEq

/-- BackendTask wrapper (platform module). -/
inductive BackendTask
  | contestedResourceTask (t : ContestedResourceTask)
deriving DecidableEq

/-- AppAction as produced by the popup code paths of the screen: no action,
push the add-existing-identity screen, or dispatch a backend task. -/
inductive AppAction
  | none
  | addScreenAddExistingIdentity
  | backendTask (t : BackendTask)
deriving DecidableEq

/-- The mutable state of DPNSContestedNamesScreen (the AppContext handle is
external and carries no screen state). -/
structure DPNSContestedNamesScreen where
  voting_identities : List QualifiedIdentity
  user_identities : List QualifiedIdentity
  contested_names : List ContestedName
  error_message : Option (String × MessageType × Int)
  sort_column : SortColumn
  sort_order : SortOrder
  show_vote_popup_info : Option (String × ContestedResourceTask)
deriving DecidableEq

/-- Rust Ord::cmp on a linear order: Less, Equal or Greater. -/
def cmpLinear {α : Type} [LinearOrder α] (a b : α) : Ordering :=
  if a < b then Ordering.lt else if a = b then Ordering.eq else Ordering.gt

/-- Rust derived Ord on Option: None sorts before Some. -/
def optCmp {α : Type} (cmp : α → α → Ordering) : Option α → Option α → Ordering
  | Option.none, Option.none => Ordering.eq
  | Option.none, Option.some _ => Ordering.lt
  | Option.some _, Option.none => Ordering.gt
  | Option.some a, Option.some b => cmp a b

/-- The per-column comparison of sort_contested_names: a.field.cmp(b.field)
for the field selected by sort_column. -/
def cmpColumn : SortColumn → ContestedName → ContestedName → Ordering
  | SortColumn.contestedName, a, b =>
      cmpLinear a.normalized_contested_name b.normalized_contested_name
  | SortColumn.lockedVotes, a, b => optCmp cmpLinear a.locked_votes b.locked_votes
  | SortColumn.abstainVotes, a, b => optCmp cmpLinear a.abstain_votes b.abstain_votes
  | SortColumn.endingTime, a, b => optCmp cmpLinear a.end_time b.end_time
  | SortColumn.lastUpdated, a, b => optCmp cmpLinear a.last_updated b.last_updated

/-- The full comparator of sort_contested_names: the column comparison,
reversed when the sort order is Descending. -/
def cmpSort (col : SortColumn) (ord : SortOrder) (a b : ContestedName) : Ordering :=
  match ord with
  | SortOrder.descending => (cmpColumn col a b).swap
  | SortOrder.ascending => cmpColumn col a b

/-- The weak order induced by the comparator: a sorts no later than b. -/
def sortLe (col : SortColumn) (ord : SortOrder) (a b : ContestedName) : Prop :=
  cmpSort col ord a b ≠ Ordering.gt

instance (col : SortColumn) (ord : SortOrder) : DecidableRel (sortLe col ord) :=
  fun a b => by unfold sortLe; infer_instance

/-- DPNSContestedNamesScreen::sort_contested_names: stable sort of the list
by the comparator selected by the screen state. -/
def DPNSContestedNamesScreen.sort_contested_names (s : DPNSContestedNamesScreen)
    (contested_names : List ContestedName) : List ContestedName :=
  List.insertionSort (sortLe s.sort_column s.sort_order) contested_names

/-- DPNSContestedNamesScreen::toggle_sort. -/
def DPNSContestedNamesScreen.toggle_sort (s : DPNSContestedNamesScreen)
    (column : SortColumn) : DPNSContestedNamesScreen :=
  if s.sort_column = column then
    { s with
      sort_order :=
        match s.sort_order with
        | SortOrder.ascending => SortOrder.descending
        | SortOrder.descending => SortOrder.ascending }
  else
    { s with sort_column := column, sort_order := SortOrder.ascending }

/-- DPNSContestedNamesScreen::dismiss_error. -/
def DPNSContestedNamesScreen.dismiss_error (s : DPNSContestedNamesScreen) :
    DPNSContestedNamesScreen :=
  { s with error_message := Option.none }

/-- DPNSContestedNamesScreen::check_error_expiration, with the current time
passed explicitly (the source samples Utc::now). -/
def DPNSContestedNamesScreen.check_error_expiration (s : DPNSContestedNamesScreen)
    (now : Int) : DPNSContestedNamesScreen :=
  match s.error_message with
  | Option.some (_, _, timestamp) =>
      if now - timestamp > 5 then s.dismiss_error else s
  | Option.none => s

/-- DPNSContestedNamesScreen::display_message, with the posting time passed
explicitly (the source samples Utc::now). -/
def DPNSContestedNamesScreen.display_message (s : DPNSContestedNamesScreen)
    (message : String) (message_type : MessageType) (now : Int) :
    DPNSContestedNamesScreen :=
  { s with error_message := Option.some (message, message_type, now) }

/-- ScreenLike::refresh for the screen: the result of the app context read
ongoing_contested_names is passed explicitly; unwrap_or_default replaces the
cache with the read result, or with the empty vector on error. -/
def DPNSContestedNamesScreen.refresh {ε : Type} (s : DPNSContestedNamesScreen)
    (ongoing_contested_names : Except ε (List ContestedName)) :
    DPNSContestedNamesScreen :=
  { s with
    contested_names :=
      match ongoing_contested_names with
      | Except.ok names => names
      | Except.error _ => [] }

/-- DPNSContestedNamesScreen::new: builds the screen from the three local
reads, each defaulting to empty on error (unwrap_or_else / unwrap_or_default),
with initial sort state ContestedName ascending and no message or popup. -/
def DPNSContestedNamesScreen.new {ε₁ ε₂ ε₃ : Type}
    (ongoing_contested_names : Except ε₁ (List ContestedName))
    (local_voting_identities : Except ε₂ (List QualifiedIdentity))
    (local_user_identities : Except ε₃ (List QualifiedIdentity)) :
    DPNSContestedNamesScreen :=
  { contested_names :=
      match ongoing_contested_names with
      | Except.ok names => names
      | Except.error _ => []
    voting_identities :=
      match local_voting_identities with
      | Except.ok ids => ids
      | Except.error _ => []
    user_identities :=
      match local_user_identities with
      | Except.ok ids => ids
      | Except.error _ => []
    error_message := Option.none
    sort_column := SortColumn.contestedName
    sort_order := SortOrder.ascending
    show_vote_popup_info := Option.none }

/-- ScreenLike::refresh_on_arrival: reloads the two identity lists, each
defaulting to empty on error (unwrap_or_default). -/
def DPNSContestedNamesScreen.refresh_on_arrival {ε₁ ε₂ : Type}
    (s : DPNSContestedNamesScreen)
    (local_voting_identities : Except ε₁ (List QualifiedIdentity))
    (local_user_identities : Except ε₂ (List QualifiedIdentity)) :
    DPNSContestedNamesScreen :=
  { s with
    voting_identities :=
      match local_voting_identities with
      | Except.ok ids => ids
      | Except.error _ => []
    user_identities :=
      match local_user_identities with
      | Except.ok ids => ids
      | Except.error _ => [] }

/-- One frame of button interaction inside the vote popup. -/
inductive VotePopupClick
  | loadIdentity
  | cancel
  | identityAt (i : Nat)
  | all
  | nothing
deriving DecidableEq

/-- DPNSContestedNamesScreen::show_vote_popup, one click event per frame.
With no voting identities only the load-identity and cancel buttons exist;
otherwise, when the pending task is VoteOnDPNSName, one button per voting
identity pushes that identity onto the voters and dispatches, the All button
pushes every identity and dispatches, and Cancel clears the popup. -/
def DPNSContestedNamesScreen.show_vote_popup (s : DPNSContestedNamesScreen)
    (click : VotePopupClick) : DPNSContestedNamesScreen × AppAction :=
  if s.voting_identities.isEmpty then
    match click with
    | VotePopupClick.loadIdentity =>
        ({ s with show_vote_popup_info := Option.none },
          AppAction.addScreenAddExistingIdentity)
    | VotePopupClick.cancel =>
        ({ s with show_vote_popup_info := Option.none }, AppAction.none)
    | _ => (s, AppAction.none)
  else
    match s.show_vote_popup_info with
    | Option.some (_, ContestedResourceTask.voteOnDPNSName contested_name vote_choice voters) =>
        (match click with
        | VotePopupClick.identityAt i =>
            match s.voting_identities[i]? with
            | Option.some identity =>
                ({ s with show_vote_popup_info := Option.none },
                  AppAction.backendTask (BackendTask.contestedResourceTask
                    (ContestedResourceTask.voteOnDPNSName contested_name vote_choice
                      (voters ++ [identity]))))
            | Option.none => (s, AppAction.none)
        | VotePopupClick.all =>
            ({ s with show_vote_popup_info := Option.none },
              AppAction.backendTask (BackendTask.contestedResourceTask
                (ContestedResourceTask.voteOnDPNSName contested_name vote_choice
                  (voters ++ s.voting_identities))))
        | VotePopupClick.cancel =>
            ({ s with show_vote_popup_info := Option.none }, AppAction.none)
        | _ => (s, AppAction.none))
    | Option.some (_, ContestedResourceTask.queryDPNSContestedResources) =>
        (match click with
        | VotePopupClick.cancel =>
            ({ s with show_vote_popup_info := Option.none }, AppAction.none)
        | _ => (s, AppAction.none))
    | Option.none => (s, AppAction.none)

/-- The configuration handed to the SDK builder (config.rs, the fields used
by sdk_wrapper.rs). -/
structure Config where
  dapi_address_list : List String
  core_host : String
  core_rpc_port : Nat
  core_rpc_user : String
  core_rpc_password : String
deriving DecidableEq

/-- RequestSettings as constructed by initialize_sdk; durations counted in
seconds. -/
structure RequestSettings where
  connect_timeout : Option Nat
  timeout : Option Nat
  retries : Option Nat
  ban_failed_address : Option Bool
deriving DecidableEq

/-- The RequestSettings value that initialize_sdk builds, for any
configuration (the configuration only feeds the address list and core
connection, not the request settings). -/
def sdk_request_settings (_config : Config) : RequestSettings :=
  { connect_timeout := Option.some 10
    timeout := Option.some 10
    retries := Option.none
    ban_failed_address := Option.some false }

/-- Folding a sequence of posts through display_message. -/
def post_messages (s : DPNSContestedNamesScreen)
    (posts : List (String × MessageType × Int)) : DPNSContestedNamesScreen :=
  posts.foldl (fun st p => st.display_message p.1 p.2.1 p.2.2) s

/-- A concrete contested name used by the concrete instances below. -/
def cAlice : ContestedName :=
  { normalized_contested_name := "alice"
    locked_votes := Option.some 5
    abstain_votes := Option.some 1
    end_time := Option.some 1700000000000
    last_updated := Option.some 1700000000
    contestants := Option.none }

/-- A second concrete contested name, with the same locked-vote count as
cAlice but a lexicographically larger normalized name. -/
def cBob : ContestedName :=
  { normalized_contested_name := "bob"
    locked_votes := Option.some 5
    abstain_votes := Option.some 2
    end_time := Option.some 1700000000500
    last_updated := Option.some 1700000100
    contestants := Option.none }

/-- A concrete screen state: one voting identity, sorting by locked votes
ascending. -/
def exampleScreen : DPNSContestedNamesScreen :=
  { voting_identities := [{ id := 1 }]
    user_identities := []
    contested_names := [cBob, cAlice]
    error_message := Option.none
    sort_column := SortColumn.lockedVotes
    sort_order := SortOrder.ascending
    show_vote_popup_info := Option.none }

/-- The concrete screen with a pending vote-confirmation popup. -/
def examplePopupScreen : DPNSContestedNamesScreen :=
  { exampleScreen with
    show_vote_popup_info :=
      Option.some ("Confirm Voting to Lock",
        ContestedResourceTask.voteOnDPNSName ("alice") ResourceVoteChoice.lock []) }

/-- The concrete screen with a pending popup but no voting identities. -/
def exampleNoIdentityScreen : DPNSContestedNamesScreen :=
  { examplePopupScreen with voting_identities := [] }

/-- Swapping the arguments of cmpLinear swaps the resulting Ordering. -/
theorem cmpLinear_swap {α : Type} [LinearOrder α] (a b : α) :
    (cmpLinear a b).swap = cmpLinear b a := by
  unfold cmpLinear
  rcases lt_trichotomy a b with h | h | h
  · rw [if_pos h, if_neg (not_lt.mpr h.le), if_neg (Ne.symm (ne_of_lt h))]
    rfl
  · subst h
    rw [if_neg (lt_irrefl a), if_pos rfl]
    rfl
  · rw [if_neg (not_lt.mpr h.le), if_neg (ne_of_gt h), if_pos h]
    rfl

/-- cmpLinear does not return Greater exactly when the first argument is at
most the second. -/
theorem cmpLinear_ne_gt {α : Type} [LinearOrder α] {a b : α} :
    cmpLinear a b ≠ Ordering.gt ↔ a ≤ b := by
  unfold cmpLinear
  rcases lt_trichotomy a b with h | h | h
  · simp [if_pos h, h.le]
  · subst h
    simp [lt_irrefl]
  · rw [if_neg (not_lt.mpr h.le), if_neg (ne_of_gt h)]
    simp [not_le.mpr h]

/-- Swapping the arguments of a lifted Option comparison swaps the result,
whenever the underlying comparison has that property. -/
theorem optCmp_swap {α : Type} [LinearOrder α] (a b : Option α) :
    (optCmp cmpLinear a b).swap = optCmp cmpLinear b a := by
  cases a <;> cases b <;> simp [optCmp, cmpLinear_swap] <;> rfl

/-- Transitivity of "does not return Greater" for the lifted Option
comparison. -/
theorem optCmp_ne_gt_trans {α : Type} [LinearOrder α] {a b c : Option α}
    (h₁ : optCmp cmpLinear a b ≠ Ordering.gt)
    (h₂ : optCmp cmpLinear b c ≠ Ordering.gt) :
    optCmp cmpLinear a c ≠ Ordering.gt := by
  cases a with
  | none => cases c <;> simp [optCmp]
  | some x =>
    cases b with
    | none => simp [optCmp] at h₁
    | some y =>
      cases c with
      | none => simp [optCmp] at h₂
      | some z =>
        simp only [optCmp, cmpLinear_ne_gt] at h₁ h₂ ⊢
        exact le_trans h₁ h₂

/-- Swapping the arguments of the column comparison swaps the result. -/
theorem cmpColumn_swap (col : SortColumn) (a b : ContestedName) :
    (cmpColumn col a b).swap = cmpColumn col b a := by
  cases col <;> simp [cmpColumn, cmpLinear_swap, optCmp_swap]

/-- Transitivity of "does not return Greater" for the column comparison. -/
theorem cmpColumn_ne_gt_trans (col : SortColumn) {a b c : ContestedName}
    (h₁ : cmpColumn col a b ≠ Ordering.gt)
    (h₂ : cmpColumn col b c ≠ Ordering.gt) :
    cmpColumn col a c ≠ Ordering.gt := by
  cases col <;>
    simp only [cmpColumn, cmpLinear_ne_gt] at h₁ h₂ ⊢ <;>
    first
      | exact le_trans h₁ h₂
      | exact optCmp_ne_gt_trans h₁ h₂

/-- The induced weak order is total. -/
theorem sortLe_total (col : SortColumn) (ord : SortOrder) (a b : ContestedName) :
    sortLe col ord a b ∨ sortLe col ord b a := by
  unfold sortLe cmpSort
  rw [← cmpColumn_swap col a b]
  cases ord <;> cases cmpColumn col a b <;> decide

/-- Descending comparison is the ascending comparison of the swapped pair. -/
theorem sortLe_descending_iff (col : SortColumn) (a b : ContestedName) :
    sortLe col SortOrder.descending a b ↔ sortLe col SortOrder.ascending b a := by
  show (cmpColumn col a b).swap ≠ Ordering.gt ↔ cmpColumn col b a ≠ Ordering.gt
  rw [cmpColumn_swap]

/-- The induced weak order is transitive. -/
theorem sortLe_trans (col : SortColumn) (ord : SortOrder) {a b c : ContestedName}
    (h₁ : sortLe col ord a b) (h₂ : sortLe col ord b c) : sortLe col ord a c := by
  cases ord with
  | ascending =>
    show cmpColumn col a c ≠ Ordering.gt
    exact cmpColumn_ne_gt_trans col h₁ h₂
  | descending =>
    rw [sortLe_descending_iff] at h₁ h₂ ⊢
    show cmpColumn col c a ≠ Ordering.gt
    exact cmpColumn_ne_gt_trans col h₂ h₁

instance (col : SortColumn) (ord : SortOrder) :
    IsTotal ContestedName (sortLe col ord) :=
  ⟨sortLe_total col ord⟩

instance (col : SortColumn) (ord : SortOrder) :
    IsTrans ContestedName (sortLe col ord) :=
  ⟨fun _ _ _ => sortLe_trans col ord⟩

/-- C1 counterexample: with one cached contested name, a refresh whose
underlying read fails leaves an empty cache instead of the prior entry. -/
theorem c1_counterexample :
    (({ exampleScreen with contested_names := [cAlice] }).refresh
        (Except.error () : Except Unit (List ContestedName))).contested_names ≠
      ({ exampleScreen with contested_names := [cAlice] }).contested_names := by
  decide

/-- C1 (amended): when the refresh's underlying read of ongoing contested
names fails with an error, the cache after the refresh is the empty list —
unwrap_or_default discards the prior entries rather than keeping them. -/
theorem c1_refresh_error_clears_cache {ε : Type} (s : DPNSContestedNamesScreen)
    (e : ε) : (s.refresh (Except.error e)).contested_names = [] := rfl

/-- C2 counterexample: sorting by locked votes ascending, with two contests
having equal locked-vote counts, the input order bob-then-alice is kept, so
the lexicographically smaller name alice is not placed first. -/
theorem c2_counterexample :
    cBob.locked_votes = cAlice.locked_votes ∧
    cAlice.normalized_contested_name < cBob.normalized_contested_name ∧
    exampleScreen.sort_contested_names [cBob, cAlice] = [cBob, cAlice] ∧
    exampleScreen.sort_contested_names [cBob, cAlice] ≠ [cAlice, cBob] := by
  refine ⟨by decide, ?_, by decide, by decide⟩
  show ("alice" : String) < "bob"
  exact String.lt_iff_toList_lt.mpr (by decide)

/-- C2 (amended): whenever two contests have equal values in the selected
sort column, the sorted output keeps them in their input order (the sort is
stable); there is no fallback comparison on the normalized name. -/
theorem c2_sort_ties_preserve_input_order (s : DPNSContestedNamesScreen)
    (a b : ContestedName) (l : List ContestedName)
    (hab : [a, b].Sublist l)
    (heq : cmpColumn s.sort_column a b = Ordering.eq) :
    [a, b].Sublist (s.sort_contested_names l) := by
  apply List.pair_sublist_insertionSort _ hab
  show cmpSort s.sort_column s.sort_order a b ≠ Ordering.gt
  unfold cmpSort
  cases s.sort_order <;> rw [heq] <;> decide

/-- C2 witness: the amended stability statement at the concrete input of the
counterexample. -/
theorem c2_witness :
    [cBob, cAlice].Sublist [cBob, cAlice] ∧
    cmpColumn exampleScreen.sort_column cBob cAlice = Ordering.eq ∧
    [cBob, cAlice].Sublist (exampleScreen.sort_contested_names [cBob, cAlice]) :=
  ⟨by decide, by decide,
    c2_sort_ties_preserve_input_order exampleScreen cBob cAlice [cBob, cAlice]
      (by decide) (by decide)⟩

/-- C3: toggling the currently selected column flips the direction (so
toggling it twice restores the original direction and keeps the column),
toggling a different column selects that column and resets to ascending
regardless of the prior direction, and a newly constructed screen sorts by
contested name ascending. -/
theorem c3_toggle_sort_spec {ε₁ ε₂ ε₃ : Type} (s : DPNSContestedNamesScreen)
    (c₁ c₂ : SortColumn) (hsame : s.sort_column = c₁) (hdiff : s.sort_column ≠ c₂)
    (cn : Except ε₁ (List ContestedName))
    (vs : Except ε₂ (List QualifiedIdentity))
    (us : Except ε₃ (List QualifiedIdentity)) :
    (s.toggle_sort c₁).sort_column = s.sort_column ∧
    (s.toggle_sort c₁).sort_order =
      (if s.sort_order = SortOrder.ascending then SortOrder.descending
        else SortOrder.ascending) ∧
    ((s.toggle_sort c₁).toggle_sort c₁).sort_column = s.sort_column ∧
    ((s.toggle_sort c₁).toggle_sort c₁).sort_order = s.sort_order ∧
    (s.toggle_sort c₂).sort_column = c₂ ∧
    (s.toggle_sort c₂).sort_order = SortOrder.ascending ∧
    (DPNSContestedNamesScreen.new cn vs us).sort_column = SortColumn.contestedName ∧
    (DPNSContestedNamesScreen.new cn vs us).sort_order = SortOrder.ascending := by
  subst hsame
  unfold DPNSContestedNamesScreen.toggle_sort
  cases s.sort_order <;>
    simp [hdiff, DPNSContestedNamesScreen.new]

/-- C3 witness: the toggle-sort specification at the concrete screen sorting
by locked votes ascending. -/
theorem c3_witness :
    exampleScreen.sort_column = SortColumn.lockedVotes ∧
    exampleScreen.sort_column ≠ SortColumn.contestedName ∧
    ((exampleScreen.toggle_sort SortColumn.lockedVotes).sort_column =
        exampleScreen.sort_column ∧
      (exampleScreen.toggle_sort SortColumn.lockedVotes).sort_order =
        (if exampleScreen.sort_order = SortOrder.ascending then SortOrder.descending
          else SortOrder.ascending) ∧
      ((exampleScreen.toggle_sort SortColumn.lockedVotes).toggle_sort
            SortColumn.lockedVotes).sort_column = exampleScreen.sort_column ∧
      ((exampleScreen.toggle_sort SortColumn.lockedVotes).toggle_sort
            SortColumn.lockedVotes).sort_order = exampleScreen.sort_order ∧
      (exampleScreen.toggle_sort SortColumn.contestedName).sort_column =
        SortColumn.contestedName ∧
      (exampleScreen.toggle_sort SortColumn.contestedName).sort_order =
        SortOrder.ascending ∧
      (DPNSContestedNamesScreen.new
          (Except.ok [] : Except Unit (List ContestedName))
          (Except.ok [] : Except Unit (List QualifiedIdentity))
          (Except.ok [] : Except Unit (List QualifiedIdentity))).sort_column =
        SortColumn.contestedName ∧
      (DPNSContestedNamesScreen.new
          (Except.ok [] : Except Unit (List ContestedName))
          (Except.ok [] : Except Unit (List QualifiedIdentity))
          (Except.ok [] : Except Unit (List QualifiedIdentity))).sort_order =
        SortOrder.ascending) :=
  ⟨by decide, by decide,
    c3_toggle_sort_spec exampleScreen SortColumn.lockedVotes SortColumn.contestedName
      (by decide) (by decide) (Except.ok []) (Except.ok []) (Except.ok [])⟩

/-- C4: a message posted at time T is still present when expiry is checked at
any time at most T plus 4, and absent when checked at any time at least T
plus 6 (the source dismisses once the elapsed seconds exceed 5). -/
theorem c4_check_error_expiration_spec (s : DPNSContestedNamesScreen)
    (msg : String) (mt : MessageType) (T t₁ t₂ : Int)
    (h₁ : t₁ ≤ T + 4) (h₂ : T + 6 ≤ t₂) :
    ((s.display_message msg mt T).check_error_expiration t₁).error_message =
      Option.some (msg, mt, T) ∧
    ((s.display_message msg mt T).check_error_expiration t₂).error_message =
      Option.none := by
  have hred : ∀ t : Int,
      (s.display_message msg mt T).check_error_expiration t =
        if t - T > 5 then (s.display_message msg mt T).dismiss_error
        else s.display_message msg mt T := fun _ => rfl
  constructor
  · rw [hred, if_neg (by omega)]
    rfl
  · rw [hred, if_pos (by omega)]
    rfl

/-- C4 witness: a message posted at time 100 is present at time 104 and gone
at time 106. -/
theorem c4_witness :
    (104 : Int) ≤ 100 + 4 ∧ (100 : Int) + 6 ≤ 106 ∧
    ((exampleScreen.display_message ("synchronization failed") MessageType.error
          100).check_error_expiration 104).error_message =
      Option.some (("synchronization failed"), MessageType.error, 100) ∧
    ((exampleScreen.display_message ("synchronization failed") MessageType.error
          100).check_error_expiration 106).error_message = Option.none :=
  ⟨by decide, by decide,
    (c4_check_error_expiration_spec exampleScreen ("synchronization failed")
        MessageType.error 100 104 106 (by decide) (by decide)).1,
    (c4_check_error_expiration_spec exampleScreen ("synchronization failed")
        MessageType.error 100 104 106 (by decide) (by decide)).2⟩

/-- C5: the status slot holds at most one message; after any sequence of
posts the current message is exactly the most recently posted one, whatever
was pending before. -/
theorem c5_single_slot_last_post_wins (s : DPNSContestedNamesScreen)
    (posts : List (String × MessageType × Int)) (p : String × MessageType × Int) :
    (post_messages s (posts ++ [p])).error_message = Option.some p := by
  unfold post_messages
  rw [List.foldl_append]
  rfl

/-- C6: the sort projection is idempotent — sorting the result of a sort
with the same screen state changes nothing (and, the projection being a pure
function of the state and the list, repeated calls on equal inputs are
definitionally equal and leave the sort state untouched). -/
theorem c6_sort_idempotent (s : DPNSContestedNamesScreen) (l : List ContestedName) :
    s.sort_contested_names (s.sort_contested_names l) = s.sort_contested_names l :=
  List.Sorted.insertionSort_eq
    (List.sorted_insertionSort (sortLe s.sort_column s.sort_order) l)

/-- C7: a failed local-storage read never propagates: construction treats a
failed contested-names read, voting-identities read or user-identities read
as the empty list, and the identity reload on arrival does the same. -/
theorem c7_storage_failure_treated_as_empty {ε : Type} (e : ε)
    (c : Except ε (List ContestedName)) (v u : Except ε (List QualifiedIdentity))
    (s : DPNSContestedNamesScreen) :
    (DPNSContestedNamesScreen.new (Except.error e) v u).contested_names = [] ∧
    (DPNSContestedNamesScreen.new c (Except.error e) u).voting_identities = [] ∧
    (DPNSContestedNamesScreen.new c v (Except.error e)).user_identities = [] ∧
    (s.refresh_on_arrival (Except.error e) u).voting_identities = [] ∧
    (s.refresh_on_arrival v (Except.error e)).user_identities = [] :=
  ⟨rfl, rfl, rfl, rfl, rfl⟩

/-- C8: for every configuration, the SDK request settings carry a connect
timeout of 10 seconds, a response timeout of 10 seconds, no retry count, and
address-banning on failure disabled. -/
theorem c8_sdk_request_settings_spec (config : Config) :
    (sdk_request_settings config).connect_timeout = Option.some 10 ∧
    (sdk_request_settings config).timeout = Option.some 10 ∧
    (sdk_request_settings config).retries = Option.none ∧
    (sdk_request_settings config).ban_failed_address = Option.some false :=
  ⟨rfl, rfl, rfl, rfl⟩

/-- C9: with a pending vote-confirmation popup, clicking Cancel clears
exactly the popup field — every other field of the screen state is unchanged
— and yields no action, hence no backend task. -/
theorem c9_cancel_clears_popup_only (s : DPNSContestedNamesScreen)
    (h : s.show_vote_popup_info.isSome = true) :
    s.show_vote_popup VotePopupClick.cancel =
      ({ s with show_vote_popup_info := Option.none }, AppAction.none) := by
  unfold DPNSContestedNamesScreen.show_vote_popup
  by_cases he : s.voting_identities.isEmpty
  · rw [if_pos he]
  · rw [if_neg he]
    rcases hp : s.show_vote_popup_info with _ | ⟨m, t⟩
    · rw [hp] at h
      simp at h
    · cases t <;> rfl

/-- C9 witness: cancelling the concrete pending lock-vote popup. -/
theorem c9_witness :
    examplePopupScreen.show_vote_popup_info.isSome = true ∧
    examplePopupScreen.show_vote_popup VotePopupClick.cancel =
      ({ examplePopupScreen with show_vote_popup_info := Option.none },
        AppAction.none) :=
  ⟨by decide, c9_cancel_clears_popup_only examplePopupScreen (by decide)⟩

/-- C10: when no voting identities are held locally, the vote popup can only
yield no action or the add-identity screen — never a backend task, for any
click. -/
theorem c10_no_identities_never_dispatches (s : DPNSContestedNamesScreen)
    (click : VotePopupClick) (h : s.voting_identities = []) :
    (s.show_vote_popup click).2 = AppAction.none ∨
    (s.show_vote_popup click).2 = AppAction.addScreenAddExistingIdentity := by
  unfold DPNSContestedNamesScreen.show_vote_popup
  rw [if_pos (by rw [h]; rfl)]
  cases click <;> simp

/-- C10 witness: the all-identities vote click on the concrete screen with a
pending popup but no voting identities yields no backend task. -/
theorem c10_witness :
    exampleNoIdentityScreen.voting_identities = [] ∧
    ((exampleNoIdentityScreen.show_vote_popup VotePopupClick.all).2 =
        AppAction.none ∨
      (exampleNoIdentityScreen.show_vote_popup VotePopupClick.all).2 =
        AppAction.addScreenAddExistingIdentity) :=
  ⟨rfl, c10_no_identities_never_dispatches exampleNoIdentityScreen
    VotePopupClick.all rfl⟩
